import Mathlib

/-!
# Verification of the Safe-Code-Executor orchestrator (`executor.py`)

Shallow embedding of `run_code`, `run_code_from_dir` and `run_multiple`.
The external runtime provider (the `docker run` subprocess) is modelled by a
`ProviderOutcome` value describing how the single invocation of
`subprocess.run` behaves: it completed with captured streams and an exit
status, it hit the wall-clock deadline (`subprocess.TimeoutExpired`, whose
exception object carries the output captured so far), or it raised some other
exception (e.g. the isolation mechanism is unavailable).  Python exceptions
escaping a function are modelled with `Except`:  `Except.error msg` is an
exception propagating to the caller.  Host-side observable side effects
(staging files, provider invocations) are recorded in an `Effects` value.
-/

namespace SafeExec

/-- The `(stdout, stderr, exit_code)` triple each executor function returns. -/
structure RunResult where
  stdout : String
  stderr : String
  exitCode : Int
deriving DecidableEq, Repr

/-- Behaviour of the single `subprocess.run` invocation of a run:
it completed, it timed out (with the output captured so far, carried by
`subprocess.TimeoutExpired`), or it raised some other exception. -/
inductive ProviderOutcome where
  | completed (stdout stderr : String) (exitCode : Int)
  | timedOut (capturedStdout capturedStderr : String)
  | failed (msg : String)
deriving DecidableEq, Repr

/-- Host-side effects of one call: files written while staging (name and
content), and how many times the runtime provider was invoked. -/
structure Effects where
  stagedFiles : List (String × String)
  providerCalls : Nat
deriving DecidableEq, Repr

/-- Constant `MEMORY_LIMIT = "128m"` in `executor.py`. -/
def MEMORY_LIMIT : String := "128m"

/-- Constant `TIMEOUT_SECONDS = 10` in `executor.py`. -/
def TIMEOUT_SECONDS : Nat := 10

/-- Python's `pat in s` substring test on strings. -/
def strContains (s pat : String) : Bool :=
  decide (pat.data <:+: s.data)

/-- Python's `str.lower` (ASCII case mapping, as in `Char.toLower`). -/
def lowerStr (s : String) : String :=
  String.mk (s.data.map Char.toLower)

/-- Python's `(lang or "python").lower()`: `None` and `""` are falsy and default to
`"python"`; anything else is lowercased. -/
def normalizeLang : Option String → String
  | none => "python"
  | some s => if s = "" then "python" else lowerStr s

/-- The supported-language tuple `("python", "node")`. -/
def SUPPORTED : List String := ["python", "node"]

/-- The fixed stderr rewrite for a detected kill:
`f"Process killed (likely out of memory > {MEMORY_LIMIT})."`. -/
def killMessage : String :=
  "Process killed (likely out of memory > " ++ MEMORY_LIMIT ++ ")."

/-- The message `f"Execution timed out after {TIMEOUT_SECONDS} seconds."`. -/
def timeoutMessage : String :=
  "Execution timed out after " ++ toString TIMEOUT_SECONDS ++ " seconds."

/-- Model of `os.path.join(host_dir, entry_filename)` (the cases exercised here). -/
def joinPath (d f : String) : String :=
  if f.startsWith "/" then f
  else if d = "" then f
  else if d.endsWith "/" then d ++ f
  else d ++ "/" ++ f

/-- Function `run_code(code, lang)` from `executor.py`.  The unsupported-language check
precedes staging and the provider call, so those effects are empty on that
path; otherwise the staged entry file is written and the provider invoked
once, and the captured result is post-processed exactly as in the source:
kill detection (`exit_code == 137 or "Killed" in stderr or "OOM" in stderr`)
rewrites the result to `("", killMessage, 137)`; then a `"MemoryError"`
occurrence returns `("", stderr, exit_code)`; otherwise the streams pass
through.  A timeout returns the fixed timeout message; any other exception
from the provider propagates (`Except.error`). -/
def run_code (code : String) (lang : Option String) (provider : ProviderOutcome) :
    Except String RunResult × Effects :=
  if normalizeLang lang ∈ SUPPORTED then
    let filename :=
      if normalizeLang lang = "python" then "user_code.py" else "user_code.js"
    let effects : Effects := ⟨[(filename, code)], 1⟩
    match provider with
    | .completed stdout0 stderr0 exitCode =>
      if exitCode = 137 ∨ strContains stderr0 "Killed" = true ∨
          strContains stderr0 "OOM" = true then
        (.ok ⟨"", killMessage, 137⟩, effects)
      else if strContains stderr0 "MemoryError" = true then
        (.ok ⟨"", stderr0, exitCode⟩, effects)
      else
        (.ok ⟨stdout0, stderr0, exitCode⟩, effects)
    | .timedOut _ _ => (.ok ⟨"", timeoutMessage, -1⟩, effects)
    | .failed msg => (.error msg, effects)
  else
    (.ok ⟨"", "Unsupported language: " ++ normalizeLang lang, -2⟩, ⟨[], 0⟩)

/-- Function `run_code_from_dir(entry_filename, lang, host_dir)` from `executor.py`.
`fs` is the host filesystem's `os.path.exists`.  The language check and the
host-side entry-existence check both precede the provider call.  On a
completed run the only rewrite is `if exit_code != 0 and "Killed" in stderr`,
which replaces stderr with `killMessage` but keeps stdout and the exit code. -/
def run_code_from_dir (entry_filename : String) (lang : Option String)
    (host_dir : String) (fs : String → Bool) (provider : ProviderOutcome) :
    Except String RunResult × Effects :=
  if normalizeLang lang ∈ SUPPORTED then
    if fs (joinPath host_dir entry_filename) = true then
      let effects : Effects := ⟨[], 1⟩
      match provider with
      | .completed stdout0 stderr0 exitCode =>
        if exitCode ≠ 0 ∧ strContains stderr0 "Killed" = true then
          (.ok ⟨stdout0, killMessage, exitCode⟩, effects)
        else
          (.ok ⟨stdout0, stderr0, exitCode⟩, effects)
      | .timedOut _ _ => (.ok ⟨"", timeoutMessage, -1⟩, effects)
      | .failed msg => (.error msg, effects)
    else
      (.ok ⟨"", "Entry file not found: " ++ entry_filename, -3⟩, ⟨[], 0⟩)
  else
    (.ok ⟨"", "Unsupported language: " ++ normalizeLang lang, -2⟩, ⟨[], 0⟩)

/-- One task (dict) of `run_multiple`'s input: `t.get("code", "")` and
`t.get("lang", "python")`; a `lang` key holding Python `None` is `none`. -/
structure Task where
  code : String
  lang : Option String
deriving DecidableEq, Repr

/-- What `run_multiple` stores for one future: `fut.result()` on success,
and `("", f"Executor error: {e}", -3)` when the future raised. -/
def runTask (t : Task) (p : ProviderOutcome) : RunResult :=
  match (run_code t.code t.lang p).1 with
  | .ok r => r
  | .error e => ⟨"", "Executor error: " ++ e, -3⟩

/-- The `as_completed` loop of `run_multiple`: each completed future's index
`i` (from `futures_map`) has its result written into slot `i` of the
accumulator, in completion order `order`. -/
def fillResults (tasks : List Task) (providers : Nat → ProviderOutcome) :
    List Nat → List (Option RunResult) → List (Option RunResult)
  | [], acc => acc
  | i :: rest, acc =>
      fillResults tasks providers rest
        (match tasks[i]? with
          | some t => acc.set i (some (runTask t (providers i)))
          | none => acc)

/-- Function `run_multiple(tasks)` from `executor.py`: `results = [None] * len(tasks)`
filled by the `as_completed` loop, where `order` is the order in which the
futures complete and `providers i` is the provider behaviour seen by task
`i`'s `run_code` call. -/
def run_multiple (tasks : List Task) (providers : Nat → ProviderOutcome)
    (order : List Nat) : List (Option RunResult) :=
  fillResults tasks providers order (List.replicate tasks.length none)

/-- A host filesystem on which every path exists. -/
def fsAll : String → Bool := fun _ => true

/-- A host filesystem on which no path exists. -/
def fsNone : String → Bool := fun _ => false

end SafeExec

namespace SafeExec

/-! ## Helper lemmas -/

theorem char_toLower_idem (c : Char) : c.toLower.toLower = c.toLower := by
  show (if c.toNat ≥ 65 ∧ c.toNat ≤ 90 then Char.ofNat (c.toNat + 32) else c).toLower
      = (if c.toNat ≥ 65 ∧ c.toNat ≤ 90 then Char.ofNat (c.toNat + 32) else c)
  by_cases hc : c.toNat ≥ 65 ∧ c.toNat ≤ 90
  · rw [if_pos hc]
    obtain ⟨h1, h2⟩ := hc
    generalize c.toNat = n at h1 h2
    interval_cases n <;> decide
  · rw [if_neg hc]
    show (if c.toNat ≥ 65 ∧ c.toNat ≤ 90 then Char.ofNat (c.toNat + 32) else c) = c
    rw [if_neg hc]

theorem lowerStr_idem (s : String) : lowerStr (lowerStr s) = lowerStr s := by
  simp [lowerStr, List.map_map, Function.comp_def, char_toLower_idem]

theorem lowerStr_eq_empty (s : String) : lowerStr s = "" ↔ s = "" := by
  constructor
  · intro h
    have hd : s.data.map Char.toLower = [] := congrArg String.data h
    rcases s with ⟨d⟩
    cases d with
    | nil => rfl
    | cons a l => simp at hd
  · rintro rfl; rfl

theorem normalizeLang_lower (L : String) :
    normalizeLang (some (lowerStr L)) = normalizeLang (some L) := by
  by_cases h : L = ""
  · subst h; rfl
  · simp [normalizeLang, h, lowerStr_eq_empty, lowerStr_idem]

theorem fillResults_length (tasks : List Task) (providers : Nat → ProviderOutcome)
    (order : List Nat) (acc : List (Option RunResult)) :
    (fillResults tasks providers order acc).length = acc.length := by
  induction order generalizing acc with
  | nil => rfl
  | cons j rest ih =>
      show (fillResults tasks providers rest _).length = acc.length
      rw [ih]
      cases h : tasks[j]? <;> simp

theorem fillResults_not_mem (tasks : List Task) (providers : Nat → ProviderOutcome)
    (order : List Nat) (acc : List (Option RunResult)) (i : Nat) (hi : i ∉ order) :
    (fillResults tasks providers order acc)[i]? = acc[i]? := by
  induction order generalizing acc with
  | nil => rfl
  | cons j rest ih =>
      have hij : i ≠ j := fun h => hi (h ▸ List.mem_cons_self j rest)
      have hir : i ∉ rest := fun h => hi (List.mem_cons_of_mem j h)
      show (fillResults tasks providers rest _)[i]? = acc[i]?
      rw [ih _ hir]
      cases h : tasks[j]? with
      | none => rfl
      | some t => exact List.getElem?_set_ne (fun h => hij h.symm)

theorem fillResults_mem (tasks : List Task) (providers : Nat → ProviderOutcome)
    (order : List Nat) (i : Nat) (t : Task) (hin : i ∈ order)
    (ht : tasks[i]? = some t) (acc : List (Option RunResult)) (hlen : i < acc.length) :
    (fillResults tasks providers order acc)[i]? =
      some (some (runTask t (providers i))) := by
  induction order generalizing acc with
  | nil => cases hin
  | cons j rest ih =>
      show (fillResults tasks providers rest _)[i]? = _
      by_cases hr : i ∈ rest
      · apply ih hr
        cases h : tasks[j]? <;> simp [hlen]
      · have hij : i = j := by
          rcases List.mem_cons.mp hin with h | h
          · exact h
          · exact absurd h hr
        subst hij
        rw [fillResults_not_mem _ _ _ _ _ hr, ht]
        exact List.getElem?_set_self hlen

theorem runTask_failed (t : Task) (e : String)
    (hl : normalizeLang t.lang ∈ SUPPORTED) :
    runTask t (.failed e) = ⟨"", "Executor error: " ++ e, -3⟩ := by
  simp only [runTask, run_code, if_pos hl]

/-! ## Claim theorems -/

/-- Claim C1, counterexample: the kill rewrite is NOT applied identically to
inline and directory runs.  On the same captured provider result
`(stdout = "out", stderr = "OOM", exit = 1)`, `run_code` classifies the run
as killed (stdout discarded, stderr rewritten, exit code forced to 137),
while `run_code_from_dir` passes the result through unchanged: its rewrite
requires `"Killed"` in stderr and never fires on `"OOM"` or on the exit
status alone. -/
theorem kill_rewrite_not_identical_cex :
    (run_code "c" (some "python") (.completed "out" "OOM" 1)).1 =
      .ok ⟨"", killMessage, 137⟩ ∧
    (run_code_from_dir "main.py" (some "python") "/d" fsAll
        (.completed "out" "OOM" 1)).1 = .ok ⟨"out", "OOM", 1⟩ := ⟨rfl, rfl⟩

/-- Claim C1, amended: the two entry points share the fixed kill message but
not the detection condition or the result shape.  `run_code` detects a kill
when the exit status is 137 or stderr contains `"Killed"` or `"OOM"`, and
then discards stdout and reports exit code 137; `run_code_from_dir` rewrites
only stderr, only when the exit status is nonzero and stderr contains
`"Killed"`, preserving stdout and the original exit code, and otherwise
passes the captured result through. -/
theorem kill_rewrite_characterization (code entry_filename host_dir : String)
    (lang : Option String) (fs : String → Bool) (stdout0 stderr0 : String)
    (exitCode : Int) (hl : normalizeLang lang ∈ SUPPORTED)
    (hfs : fs (joinPath host_dir entry_filename) = true) :
    ((exitCode = 137 ∨ strContains stderr0 "Killed" = true ∨
        strContains stderr0 "OOM" = true) →
      (run_code code lang (.completed stdout0 stderr0 exitCode)).1 =
        .ok ⟨"", killMessage, 137⟩) ∧
    ((exitCode ≠ 0 ∧ strContains stderr0 "Killed" = true) →
      (run_code_from_dir entry_filename lang host_dir fs
          (.completed stdout0 stderr0 exitCode)).1 =
        .ok ⟨stdout0, killMessage, exitCode⟩) ∧
    (¬(exitCode ≠ 0 ∧ strContains stderr0 "Killed" = true) →
      (run_code_from_dir entry_filename lang host_dir fs
          (.completed stdout0 stderr0 exitCode)).1 =
        .ok ⟨stdout0, stderr0, exitCode⟩) := by
  refine ⟨fun hc => ?_, fun hc => ?_, fun hc => ?_⟩
  · simp only [run_code, if_pos hl]
    rw [if_pos hc]
  · simp only [run_code_from_dir, if_pos hl, if_pos hfs]
    rw [if_pos hc]
  · simp only [run_code_from_dir, if_pos hl, if_pos hfs]
    rw [if_neg hc]

/-- Witness for the amended C1 theorem at concrete inputs. -/
theorem kill_rewrite_characterization_witness :
    (run_code "c" (some "python") (.completed "o" "Killed" 137)).1 =
      .ok ⟨"", killMessage, 137⟩ ∧
    (run_code_from_dir "m.py" (some "python") "/d" fsAll
        (.completed "o" "Killed" 137)).1 = .ok ⟨"o", killMessage, 137⟩ ∧
    (run_code_from_dir "m.py" (some "python") "/d" fsAll
        (.completed "o" "fine" 0)).1 = .ok ⟨"o", "fine", 0⟩ :=
  ⟨(kill_rewrite_characterization "c" "m.py" "/d" (some "python") fsAll "o"
      "Killed" 137 (by decide) rfl).1 (Or.inr (Or.inl (by decide))),
   (kill_rewrite_characterization "c" "m.py" "/d" (some "python") fsAll "o"
      "Killed" 137 (by decide) rfl).2.1 ⟨by decide, by decide⟩,
   (kill_rewrite_characterization "c" "m.py" "/d" (some "python") fsAll "o"
      "fine" 0 (by decide) rfl).2.2 (by simp)⟩

/-- Claim C2, counterexample: a failure to invoke the provider itself is NOT
converted to a classified result — `run_code` propagates the exception
(`Except.error`), because its `try` block only catches the timeout
exception. -/
theorem provider_failure_propagates_cex :
    (run_code "x" (some "python") (.failed "docker: command unavailable")).1 =
      .error "docker: command unavailable" := rfl

/-- Claim C2, amended: for a supported language, `run_code` converts a
provider timeout into the fixed timed-out result, but any other failure of
the provider invocation propagates to the caller as an exception rather
than being returned as a classified internal-failure outcome. -/
theorem provider_failure_propagates (code : String) (lang : Option String)
    (msg capturedStdout capturedStderr : String)
    (hl : normalizeLang lang ∈ SUPPORTED) :
    (run_code code lang (.failed msg)).1 = .error msg ∧
    (run_code code lang (.timedOut capturedStdout capturedStderr)).1 =
      .ok ⟨"", timeoutMessage, -1⟩ := by
  constructor
  · simp only [run_code, if_pos hl]
  · simp only [run_code, if_pos hl]

/-- Witness for the amended C2 theorem at concrete inputs. -/
theorem provider_failure_propagates_witness :
    (run_code "x" (some "node") (.failed "no docker")).1 = .error "no docker" ∧
    (run_code "x" (some "node") (.timedOut "a" "b")).1 =
      .ok ⟨"", timeoutMessage, -1⟩ :=
  provider_failure_propagates "x" (some "node") "no docker" "a" "b" (by decide)

/-- Claim C3: for an inline run whose exit status is the kill sentinel 137 or
whose stderr contains the case-sensitive kill marker `"Killed"`, `run_code`
returns the kill rewrite: stdout discarded, stderr replaced by the fixed
message (which names the configured memory ceiling `MEMORY_LIMIT`), exit
code 137. -/
theorem resource_killed_rewrite (code : String) (lang : Option String)
    (stdout0 stderr0 : String) (exitCode : Int)
    (hl : normalizeLang lang ∈ SUPPORTED)
    (hk : exitCode = 137 ∨ strContains stderr0 "Killed" = true) :
    (run_code code lang (.completed stdout0 stderr0 exitCode)).1 =
      .ok ⟨"", killMessage, 137⟩ ∧ strContains killMessage MEMORY_LIMIT = true := by
  refine ⟨?_, by decide⟩
  have hcond : exitCode = 137 ∨ strContains stderr0 "Killed" = true ∨
      strContains stderr0 "OOM" = true := by
    rcases hk with h | h
    · exact Or.inl h
    · exact Or.inr (Or.inl h)
  simp only [run_code, if_pos hl]
  rw [if_pos hcond]

/-- Witness for the C3 theorem at a concrete input. -/
theorem resource_killed_rewrite_witness :
    (run_code "x = [0] * 10 ** 9" (some "python") (.completed "junk" "Killed" 137)).1 =
      .ok ⟨"", killMessage, 137⟩ ∧ strContains killMessage MEMORY_LIMIT = true :=
  resource_killed_rewrite "x = [0] * 10 ** 9" (some "python") "junk" "Killed" 137
    (by decide) (Or.inl rfl)

/-- Claim C4: for any batch and any completion order that is a permutation of
the task indices, `run_multiple` returns as many results as tasks and slot
`i` holds exactly the outcome of executing task `i`, independently of the
completion order. -/
theorem run_multiple_preserves_order (tasks : List Task)
    (providers : Nat → ProviderOutcome) (order : List Nat)
    (hperm : order.Perm (List.range tasks.length)) :
    (run_multiple tasks providers order).length = tasks.length ∧
    ∀ i t, tasks[i]? = some t →
      (run_multiple tasks providers order)[i]? =
        some (some (runTask t (providers i))) := by
  constructor
  · rw [run_multiple, fillResults_length, List.length_replicate]
  · intro i t ht
    have hi : i < tasks.length := by
      rcases List.getElem?_eq_some.mp ht with ⟨h, _⟩
      exact h
    have hin : i ∈ order := hperm.mem_iff.mpr (List.mem_range.mpr hi)
    exact fillResults_mem tasks providers order i t hin ht _
      (by simpa using hi)

/-- Witness for the C4 theorem: a two-task batch completed in reverse order
still reports task 0's own output at slot 0. -/
theorem run_multiple_preserves_order_witness :
    (run_multiple [⟨"print(1)", some "python"⟩, ⟨"log(2)", some "node"⟩]
        (fun i => .completed (toString i) "" 0) [1, 0])[0]? =
      some (some ⟨"0", "", 0⟩) := by
  have h := (run_multiple_preserves_order
    [⟨"print(1)", some "python"⟩, ⟨"log(2)", some "node"⟩]
    (fun i => .completed (toString i) "" 0) [1, 0] (by decide)).2 0
    ⟨"print(1)", some "python"⟩ rfl
  rw [h]; rfl

/-- Claim C5, counterexample: on a timed-out run, `run_code` does NOT return
the output captured so far — it returns empty stdout and a fixed timeout
message, even when the timeout exception carried nonempty captured
streams. -/
theorem timeout_discards_partial_output_cex :
    (run_code "while True: pass" (some "python")
        (.timedOut "captured so far" "some stderr")).1 =
      .ok ⟨"", timeoutMessage, -1⟩ ∧
    ("" : String) ≠ "captured so far" ∧ timeoutMessage ≠ "some stderr" :=
  ⟨rfl, by decide, by decide⟩

/-- Claim C5, amended: when the wall-clock deadline elapses, `run_code`
returns exit code `-1` with empty stdout and stderr replaced by the fixed
message naming the configured `TIMEOUT_SECONDS`, discarding whatever output
was captured before the deadline. -/
theorem timeout_fixed_result (code : String) (lang : Option String)
    (capturedStdout capturedStderr : String)
    (hl : normalizeLang lang ∈ SUPPORTED) :
    (run_code code lang (.timedOut capturedStdout capturedStderr)).1 =
      .ok ⟨"", timeoutMessage, -1⟩ ∧
    strContains timeoutMessage (toString TIMEOUT_SECONDS) = true := by
  refine ⟨?_, by decide⟩
  simp only [run_code, if_pos hl]

/-- Witness for the amended C5 theorem at a concrete input. -/
theorem timeout_fixed_result_witness :
    (run_code "while True: pass" (some "python") (.timedOut "p" "q")).1 =
      .ok ⟨"", timeoutMessage, -1⟩ ∧
    strContains timeoutMessage (toString TIMEOUT_SECONDS) = true :=
  timeout_fixed_result "while True: pass" (some "python") "p" "q" (by decide)

/-- Claim C6: when stderr contains the language-level signal `"MemoryError"`
but neither runtime-level kill marker (`"Killed"`, `"OOM"`) and the exit
status is not the kill sentinel 137, `run_code` returns the raw stderr text
and the original exit code unchanged (a runtime-error outcome, not a kill
rewrite). -/
theorem memory_error_preserves_stderr (code : String) (lang : Option String)
    (stdout0 stderr0 : String) (exitCode : Int)
    (hl : normalizeLang lang ∈ SUPPORTED)
    (hm : strContains stderr0 "MemoryError" = true)
    (hnk : strContains stderr0 "Killed" = false)
    (hno : strContains stderr0 "OOM" = false)
    (hne : exitCode ≠ 137) :
    (run_code code lang (.completed stdout0 stderr0 exitCode)).1 =
      .ok ⟨"", stderr0, exitCode⟩ := by
  have hcond : ¬(exitCode = 137 ∨ strContains stderr0 "Killed" = true ∨
      strContains stderr0 "OOM" = true) := by
    rintro (h | h | h)
    · exact hne h
    · rw [hnk] at h; cases h
    · rw [hno] at h; cases h
  simp only [run_code, if_pos hl]
  rw [if_neg hcond, if_pos hm]

/-- Witness for the C6 theorem at a concrete input. -/
theorem memory_error_preserves_stderr_witness :
    (run_code "l = []" (some "python") (.completed "partly"
        "Traceback: MemoryError" 1)).1 = .ok ⟨"", "Traceback: MemoryError", 1⟩ :=
  memory_error_preserves_stderr "l = []" (some "python") "partly"
    "Traceback: MemoryError" 1 (by decide) (by decide) (by decide) (by decide)
    (by decide)

/-- Claim C7: for a language whose normalized value is outside the supported
set, `run_code` returns the unsupported-language result (exit code `-2`)
with no staged files and zero provider invocations. -/
theorem unsupported_language_no_effects (code : String) (lang : Option String)
    (p : ProviderOutcome) (hl : normalizeLang lang ∉ SUPPORTED) :
    run_code code lang p =
      (.ok ⟨"", "Unsupported language: " ++ normalizeLang lang, -2⟩, ⟨[], 0⟩) := by
  simp only [run_code, if_neg hl]

/-- Witness for the C7 theorem at a concrete input. -/
theorem unsupported_language_no_effects_witness :
    run_code "puts 1" (some "Ruby") (.completed "o" "e" 0) =
      (.ok ⟨"", "Unsupported language: " ++ normalizeLang (some "Ruby"), -2⟩,
        ⟨[], 0⟩) :=
  unsupported_language_no_effects "puts 1" (some "Ruby")
    (.completed "o" "e" 0) (by decide)

/-- Claim C8: for a supported language, when the entry path does not exist on
the host filesystem under the source root, `run_code_from_dir` returns the
entry-not-found result (exit code `-3`) and the provider is never invoked
(zero provider calls recorded). -/
theorem entry_not_found_no_provider (entry_filename host_dir : String)
    (lang : Option String) (fs : String → Bool) (p : ProviderOutcome)
    (hl : normalizeLang lang ∈ SUPPORTED)
    (hfs : fs (joinPath host_dir entry_filename) = false) :
    run_code_from_dir entry_filename lang host_dir fs p =
      (.ok ⟨"", "Entry file not found: " ++ entry_filename, -3⟩, ⟨[], 0⟩) := by
  simp only [run_code_from_dir, if_pos hl]
  rw [if_neg (by rw [hfs]; exact Bool.false_ne_true)]

/-- Witness for the C8 theorem at a concrete input. -/
theorem entry_not_found_no_provider_witness :
    run_code_from_dir "main.py" (some "python") "/tmp/job" fsNone
        (.completed "o" "e" 0) =
      (.ok ⟨"", "Entry file not found: " ++ "main.py", -3⟩, ⟨[], 0⟩) :=
  entry_not_found_no_provider "main.py" "/tmp/job" (some "python") fsNone
    (.completed "o" "e" 0) (by decide) rfl

/-- Claim C9: in `run_multiple` a failing request is isolated: if task `i`'s
`run_code` call raises (`providers i = .failed e`) then slot `i` holds the
`"Executor error: …"` record with exit code `-3`, and every other task `j`
still gets its own outcome at slot `j`, for any completion order. -/
theorem run_multiple_isolates_failure (tasks : List Task)
    (providers : Nat → ProviderOutcome) (order : List Nat) (i : Nat) (e : String)
    (hperm : order.Perm (List.range tasks.length))
    (hfail : providers i = .failed e) :
    (∀ t, tasks[i]? = some t → normalizeLang t.lang ∈ SUPPORTED →
      (run_multiple tasks providers order)[i]? =
        some (some ⟨"", "Executor error: " ++ e, -3⟩)) ∧
    (∀ j t, j ≠ i → tasks[j]? = some t →
      (run_multiple tasks providers order)[j]? =
        some (some (runTask t (providers j)))) := by
  have base := run_multiple_preserves_order tasks providers order hperm
  constructor
  · intro t ht hlang
    rw [base.2 i t ht, hfail, runTask_failed t e hlang]
  · intro j t _ ht
    exact base.2 j t ht

/-- Witness for the C9 theorem: task 0 raises, its slot gets the executor
error record while task 1 is unaffected. -/
theorem run_multiple_isolates_failure_witness :
    (run_multiple [⟨"a", some "python"⟩, ⟨"b", some "node"⟩]
        (fun i => if i = 0 then .failed "boom" else .completed "ok" "" 0)
        [1, 0])[0]? = some (some ⟨"", "Executor error: " ++ "boom", -3⟩) :=
  (run_multiple_isolates_failure [⟨"a", some "python"⟩, ⟨"b", some "node"⟩]
    (fun i => if i = 0 then .failed "boom" else .completed "ok" "" 0)
    [1, 0] 0 "boom" (by decide) rfl).1 ⟨"a", some "python"⟩ rfl (by decide)

/-- Claim C10: language selection is case-insensitive and defaults to python
in both entry points: lowercasing the language first does not change the
result, and a missing (`none`) or empty language behaves exactly like
`"python"`. -/
theorem lang_case_insensitive_and_default (code entry_filename host_dir L : String)
    (fs : String → Bool) (p : ProviderOutcome) :
    run_code code (some L) p = run_code code (some (lowerStr L)) p ∧
    run_code code none p = run_code code (some "python") p ∧
    run_code code (some "") p = run_code code (some "python") p ∧
    run_code_from_dir entry_filename (some L) host_dir fs p =
      run_code_from_dir entry_filename (some (lowerStr L)) host_dir fs p ∧
    run_code_from_dir entry_filename none host_dir fs p =
      run_code_from_dir entry_filename (some "python") host_dir fs p ∧
    run_code_from_dir entry_filename (some "") host_dir fs p =
      run_code_from_dir entry_filename (some "python") host_dir fs p := by
  have h1 : normalizeLang (some (lowerStr L)) = normalizeLang (some L) :=
    normalizeLang_lower L
  have h2 : normalizeLang none = normalizeLang (some "python") := by decide
  have h3 : normalizeLang (some "") = normalizeLang (some "python") := by decide
  refine ⟨?_, ?_, ?_, ?_, ?_, ?_⟩ <;>
    simp only [run_code, run_code_from_dir, h1, h2, h3]

end SafeExec
